import Mathlib

/- Shallow embedding of the NUEDC Hz-coin auto sign-in program
   (src/nuedc_hz_signin.py and src/signin.py) together with proofs about
   the sentences of its specification.  Every definition below is a direct
   translation of a function or code region of the Python sources; the
   doc comment of each definition names the function it embeds. -/

/-- Is the first (pattern) character list a prefix of the second list.
Used to model Python startswith and the substring operator. -/
def leadsWith : List Char → List Char → Bool
  | [], _ => true
  | _ :: _, [] => false
  | a :: as, b :: bs => a == b && leadsWith as bs

/-- Does some suffix of the second list begin with the first (pattern) list. -/
def hasRun (p : List Char) : List Char → Bool
  | [] => p.isEmpty
  | c :: rest => leadsWith p (c :: rest) || hasRun p rest

/-- Python `pat in s` for strings. -/
def strHasSub (s pat : String) : Bool := hasRun pat.data s.data

/-- Python `s.startswith(pre)`. -/
def startsWithStr (s pre : String) : Bool := leadsWith pre.data s.data

/-- A resolved absolute URL, holding the components Python urlparse exposes.
Responses carry structured URLs; `render` is the flat string form that
requests exposes as the final URL after redirects.  The scheme is fixed to
https, which every URL of this program uses. -/
structure Url where
  host : String
  path : String
  query : String
deriving DecidableEq

/-- The string form of a URL, the shape of requests Response url. -/
def render (u : Url) : String :=
  "https://" ++ u.host ++ u.path ++ (if u.query = "" then "" else "?" ++ u.query)

/-- JSON values as returned by Response json, with numbers restricted to
the integral case the sign endpoint produces. -/
inductive JVal where
  | null
  | jb (b : Bool)
  | ji (n : Int)
  | js (t : String)
  | jarr (elems : List JVal)
  | jobj (fields : List (String × JVal))

/-- First-match lookup in an association list, the read side of a Python
dict whose keys are unique. -/
def plook {α : Type} (k : String) : List (String × α) → Option α
  | [] => none
  | (k2, v) :: rest => if k2 = k then some v else plook k rest

/-- Python dict get on a parsed JSON object. -/
def jget (fields : List (String × JVal)) (k : String) : Option JVal :=
  plook k fields

/-- Python int(x) on the modelled value shapes; none models a raised error.
String parsing is modelled as toInt? of the trimmed text, which matches the
signed decimal forms the endpoint produces. -/
def pyIntOf : JVal → Option Int
  | .ji n => some n
  | .jb true => some 1
  | .jb false => some 0
  | .js t => (t.trim).toInt?
  | _ => none

/-- Python str(x).  Container rendering is abstracted to fixed markers; the
claims only exercise the textual case. -/
def pyStr : JVal → String
  | .null => "None"
  | .jb true => "True"
  | .jb false => "False"
  | .ji n => toString n
  | .js t => t
  | .jarr _ => "<list repr>"
  | .jobj _ => "<dict repr>"

/-- SignResult of nuedc_hz_signin.py lines 40 to 53. -/
structure SignResult where
  status : Int
  info : String
  sign_count : Option Int
  raw : JVal

/-- Property ok of SignResult: status in (0, 1). -/
def SignResult.ok (r : SignResult) : Bool := r.status == 0 || r.status == 1

/-- Property need_login of SignResult: status == 2. -/
def SignResult.need_login (r : SignResult) : Bool := r.status == 2

def NUEDC_HOME : String := "https://www.nuedc-training.com.cn/"
def NUEDC_SIGN_URL : String := "https://www.nuedc-training.com.cn/index/mall/sign"
def MYTI_LOGIN_PAGE : String := "https://www.nuedc-training.com.cn/index/login/myti_login"

/-- The branch of _request_sign (nuedc_hz_signin.py lines 156 to 176) that
runs when the body parsed as JSON.  A returned error models a raised
exception: int() on a non-numeric status raises and is not caught there. -/
def requestSignParsed (data : JVal) : Except String SignResult :=
  match data with
  | .jobj fs =>
    let st? : Option Int :=
      match jget fs "status" with
      | none => some (-1)
      | some v => pyIntOf v
    match st? with
    | none => .error "invalid literal for int"
    | some st =>
      let inf : String :=
        match jget fs "info" with
        | none => ""
        | some v => pyStr v
      let sc : Option Int :=
        match jget fs "data" with
        | some (.jobj dfs) =>
          match jget dfs "sign_count" with
          | none => none
          | some .null => none
          | some v => pyIntOf v
        | _ => none
      .ok ⟨st, inf, sc, .jobj fs⟩
  | _ => .error "response data has no attribute get"

/-- The branch of _request_sign (nuedc_hz_signin.py lines 156 to 163) that
runs when the body did not parse as JSON: the code tests the substring
index/login against the whole final URL string. -/
def requestSignUnparsed (statusCode : Int) (u : Url) : Except String SignResult :=
  if strHasSub (render u) "index/login" = true then
    .ok ⟨2, "need login", none, .jobj []⟩
  else
    .error ("Unexpected sign response (status=" ++ toString statusCode
      ++ ", url=" ++ render u ++ ").")

/-- The response observations _request_sign makes: the parse attempt of the
body, the HTTP status code and the final URL. -/
structure SignResp where
  parsed : Option JVal
  statusCode : Int
  url : Url

/-- _request_sign of nuedc_hz_signin.py lines 145 to 176, assembled from
its two branches. -/
def requestSign (resp : SignResp) : Except String SignResult :=
  match resp.parsed with
  | some d => requestSignParsed d
  | none => requestSignUnparsed resp.statusCode resp.url

/-- One input element of an HTML form: its name and value attributes, each
possibly absent. -/
structure FormInput where
  name : Option String
  value : Option String
deriving DecidableEq

/-- One HTML form element: its action attribute, possibly absent, and its
input elements in document order. -/
structure Form where
  action : Option String
  inputs : List FormInput
deriving DecidableEq

/-- Python dict write m[k] = v on an insertion-ordered association list:
replace the value in place when the key exists, append otherwise. -/
def dictSet : List (String × String) → String → String → List (String × String)
  | [], k, v => [(k, v)]
  | (k2, v2) :: rest, k, v =>
    if k2 = k then (k, v) :: rest else (k2, v2) :: dictSet rest k v

/-- One iteration of the input loop of _extract_form: skip the input when
its name attribute is absent or empty (Python falsiness), otherwise write
name to value-or-empty into the payload dict. -/
def stepPay (acc : List (String × String)) (i : FormInput) : List (String × String) :=
  match i.name with
  | none => acc
  | some n => if n = "" then acc else dictSet acc n (i.value.getD "")

/-- The payload loop of _extract_form (nuedc_hz_signin.py lines 137 to 142),
also reused verbatim for the assertion form payload at lines 253 to 258. -/
def buildPayload (inputs : List FormInput) : List (String × String) :=
  inputs.foldl stepPay []

/-- The value of the last input of a form that carries the given name, with
the value attribute defaulting to the empty string: the observation the
last-write-wins contract of the field mapping speaks about. -/
def lastNamedVal (inputs : List FormInput) (n : String) : Option String :=
  match inputs with
  | [] => none
  | i :: rest =>
    match lastNamedVal rest n with
    | some v => some v
    | none => if i.name = some n then some (i.value.getD "") else none


/-- The named failures of the login flow and of form extraction.  The code
raises RuntimeError with a distinct message per hop, and a dedicated
BindingRequiredError class; each distinct raise site is one constructor. -/
inductive LoginErr where
  | entryNotFound
  | redirectNotFound
  | formNotFound
  | formActionMissing
  | loginRejected
  | samlFormMissing
  | ssoNotCompleted (url : String)
  | bindingRequired
deriving DecidableEq

/-- Python truthiness of the action attribute: form.get of action followed
by the falsy test, which rejects both an absent and an empty attribute. -/
def actionOf (f : Form) : Option String :=
  match f.action with
  | none => none
  | some a => if a = "" then none else some a

/-- _extract_form of nuedc_hz_signin.py lines 127 to 143.  Its argument is
the element produced by the lookup step: select_one of the selector when
one is given, find of form otherwise. -/
def extractForm (form? : Option Form) : Except LoginErr (String × List (String × String)) :=
  match form? with
  | none => .error .formNotFound
  | some f =>
    match actionOf f with
    | none => .error .formActionMissing
    | some a => .ok (a, buildPayload f.inputs)

/-- soup.find of form: the first form of the document in document order. -/
def firstFormIn (doc : List Form) : Option Form := doc.head?

/-- An anchor element with its href attribute, possibly absent. -/
structure Anchor where
  href : Option String
deriving DecidableEq

/-- The observations login_via_ti makes of one HTTP response: its final URL
and what the page parse exposes.  hasSAMLText models the substring test of
SAMLResponse against the body text. -/
structure Resp where
  url : Url
  mytiBtn : Option Anchor
  autoLink : Option Anchor
  firstForm : Option Form
  postLoginForm : Option Form
  hasSAMLText : Bool
deriving DecidableEq

/-- The sequence of responses one run of login_via_ti receives, hop by hop:
s0 entry page, s1 redirect page, s2 SP page, s3 reply to the federation
POST, s4 reply to the credential POST, s5 landing page of the assertion
POST. -/
structure LoginEnv where
  s0 : Resp
  s1 : Resp
  s2 : Resp
  s3 : Resp
  s4 : Resp
  s5 : Resp
deriving DecidableEq

/-- One outgoing HTTP request: its URL and its payload (form data, or query
parameters for the entry GET). -/
structure Request where
  url : String
  payload : List (String × String)
deriving DecidableEq

/-- The anchor check pattern of the flow: not element or not element.get
of href, with Python falsiness on the attribute. -/
def hrefOf (a? : Option Anchor) : Option String :=
  match a? with
  | none => none
  | some a =>
    match a.href with
    | none => none
    | some h => if h = "" then none else some h

/-- urljoin of the final URL of a response with an extracted link or form
action.  Abstracted: an absolute link is kept, a relative one is appended
to the base.  No claim depends on the join rule itself. -/
def joinUrl (base rel : String) : String :=
  if startsWithStr rel "http" = true then rel else base ++ rel

/-- The landing checks of login_via_ti, nuedc_hz_signin.py lines 272 to
280: the netloc must contain the target domain, then the path must not
start with the binding path, else BindingRequiredError. -/
def finalCheck (u : Url) : Except LoginErr Unit :=
  if strHasSub u.host "nuedc-training.com.cn" = false then
    .error (.ssoNotCompleted (render u))
  else if startsWithStr u.path "/index/saml/binding" = true then
    .error .bindingRequired
  else
    .ok ()

/-- The tail of login_via_ti from line 240: require the SAMLResponse marker
in the current response text, find and check the assertion form, POST its
named fields to its action, then run the landing checks against s5. -/
def consumeAssertion (env : LoginEnv) (tr : List Request) (r : Resp) :
    List Request × Except LoginErr Unit :=
  if r.hasSAMLText = false then (tr, .error .loginRejected)
  else
    match r.firstForm with
    | none => (tr, .error .samlFormMissing)
    | some f =>
      match actionOf f with
      | none => (tr, .error .samlFormMissing)
      | some act =>
        (tr ++ [⟨joinUrl (render r.url) act, buildPayload f.inputs⟩],
          finalCheck env.s5.url)

/-- The stored username of the signer: __init__ strips surrounding
whitespace and nothing else (nuedc_hz_signin.py line 69). -/
def signerUsername (u : String) : String := u.trim

/-- login_via_ti of nuedc_hz_signin.py lines 178 to 280, as a function of
the per-hop responses.  It returns the trace of requests issued up to the
point of return together with the outcome.  The username argument is the
stored signer username; the flow lower-cases it at the credential hop. -/
def loginViaTi (env : LoginEnv) (username password : String) :
    List Request × Except LoginErr Unit :=
  let req0 : Request := ⟨MYTI_LOGIN_PAGE, [("referer", NUEDC_HOME)]⟩
  match hrefOf env.s0.mytiBtn with
  | none => ([req0], .error .entryNotFound)
  | some h0 =>
    let req1 : Request := ⟨joinUrl (render env.s0.url) h0, []⟩
    match hrefOf env.s1.autoLink with
    | none => ([req0, req1], .error .redirectNotFound)
    | some h1 =>
      let req2 : Request := ⟨joinUrl (render env.s1.url) h1, []⟩
      match extractForm env.s2.firstForm with
      | .error e => ([req0, req1, req2], .error e)
      | .ok (a2, pl2) =>
        let req3 : Request := ⟨joinUrl (render env.s2.url) a2, pl2⟩
        if env.s3.hasSAMLText = true then
          consumeAssertion env [req0, req1, req2, req3] env.s3
        else
          match extractForm env.s3.postLoginForm with
          | .error e => ([req0, req1, req2, req3], .error e)
          | .ok (a4, pl4) =>
            let lp := dictSet (dictSet (dictSet pl4
              "pf.username" (String.toLower username))
              "pf.pass" password)
              "loginbutton" "login"
            let req4 : Request := ⟨joinUrl (render env.s3.url) a4, lp⟩
            consumeAssertion env [req0, req1, req2, req3, req4] env.s4

/-- One cookie with the attributes the program reads and writes: the
fields passed to create_cookie in load_cookies. -/
structure Cookie where
  name : String
  value : String
  domain : String
  path : String
  secure : Bool
  expires : Option Int
deriving DecidableEq

/-- The key under which both cookie jars index a cookie: name, domain and
path.  Both http.cookiejar and requests replace an existing cookie with
the same key and append otherwise. -/
def ckey (c : Cookie) : String × String × String := (c.name, c.domain, c.path)

/-- set_cookie of a cookie jar: replace in place on an existing key,
append otherwise. -/
def setCookie : List Cookie → Cookie → List Cookie
  | [], c => [c]
  | x :: rest, c =>
    if ckey x = ckey c then c :: rest else x :: setCookie rest c

/-- save_cookies of nuedc_hz_signin.py lines 118 to 125: every session
cookie is set into a fresh file jar, which is then written out.  The text
serialization of MozillaCookieJar is abstracted: the file is modelled as
the list of cookie records it stores. -/
def saveCookies (session : List Cookie) : List Cookie :=
  session.foldl setCookie []

/-- create_cookie as called in load_cookies: carries over name, value,
domain, path, secure and expires. -/
def createCookie (c : Cookie) : Cookie :=
  ⟨c.name, c.value, c.domain, c.path, c.secure, c.expires⟩

/-- load_cookies of nuedc_hz_signin.py lines 96 to 116: each record of the
loaded file jar is rebuilt with create_cookie and set into the session
jar. -/
def loadCookies (file session : List Cookie) : List Cookie :=
  file.foldl (fun j c => setCookie j (createCookie c)) session

/-- The name, value, domain, path tuple of a cookie, the view the
round-trip contract speaks about. -/
def nvdp (c : Cookie) : String × String × String × String :=
  (c.name, c.value, c.domain, c.path)

/-- Maximal digit runs of a string as numbers, in order: the model of
re.findall of one-or-more-digits.  The accumulator holds the digits of
the current run in reverse. -/
def numRunsGo (acc : List Char) : List Char → List (List Char)
  | [] => if acc.isEmpty then [] else [acc.reverse]
  | c :: rest =>
    if c.isDigit then numRunsGo (c :: acc) rest
    else (if acc.isEmpty then [] else [acc.reverse]) ++ numRunsGo [] rest

/-- The numeric value of a digit run. -/
def runToNat (run : List Char) : Nat :=
  run.foldl (fun n c => 10 * n + (c.toNat - 48)) 0

/-- All numbers re.findall of one-or-more-digits finds in a string, in
order, already through int(). -/
def numsIn (s : String) : List Nat :=
  (numRunsGo [] s.data).map runToNat

/-- The user profile dict built by get_user_info of signin.py: username
text and Hz coin balance, defaulting to empty and zero. -/
structure UserProfile where
  username : String
  hz_coins : Nat
deriving DecidableEq

/-- The observations get_user_info makes of the fetched home page:
the text of the first matching username selector if any; the stripped
texts of the candidate elements inside containers of the currency
keyword, in order; the stripped texts of the currency selector hits, in
order; and the whole page text. -/
structure HomePage where
  usernameText : Option String
  hzContainerTexts : List String
  hzSelectorTexts : List String
  pageText : String
deriving DecidableEq

/-- The scraping cascade of get_user_info (signin.py lines 277 to 365)
after the page was fetched and dumped: selector-based username, then the
three balance methods in order, first hit wins, with the guess of the
largest positive number on the page as the final fallback. -/
def scrapeHome (p : HomePage) : UserProfile :=
  let uname := (p.usernameText.map String.trim).getD ""
  match p.hzContainerTexts.findSome? (fun t => (numsIn t).head?) with
  | some n => ⟨uname, n⟩
  | none =>
    match p.hzSelectorTexts.findSome? (fun t => (numsIn t).head?) with
    | some n => ⟨uname, n⟩
    | none => ⟨uname, ((numsIn p.pageText).filter (fun n => 0 < n)).foldl max 0⟩

/-- get_user_info of signin.py lines 265 to 365.  The fetch of the home
page and the debug dump of its text are the fallible prefix of the
method and are not guarded there; an error argument models a raise and
propagates unchanged.  The scraping of a fetched page never fails. -/
def getUserInfo (fetch : Except String HomePage) : Except String UserProfile :=
  fetch.map scrapeHome

/-- The error a run of sign of signin.py can raise, by raising stage. -/
inductive SignErr where
  | probeErr (e : String)
  | loginErr (e : LoginErr)
  | profileErr (e : String)
deriving DecidableEq

/-- sign of signin.py lines 367 to 377 as a function of the outcomes of
its steps: the first status probe, the login flow, the second status
probe and the profile page fetch.  The second component counts the probes
issued: the code re-probes exactly once after a login and never loops. -/
def signPy (probe1 probe2 : Except String SignResult)
    (login : Except LoginErr Unit) (fetch : Except String HomePage) :
    Except SignErr (SignResult × UserProfile) × Nat :=
  match probe1 with
  | .error e => (.error (.probeErr e), 1)
  | .ok r1 =>
    if r1.need_login = false then
      match getUserInfo fetch with
      | .error e => (.error (.profileErr e), 1)
      | .ok ui => (.ok (r1, ui), 1)
    else
      match login with
      | .error e => (.error (.loginErr e), 1)
      | .ok _ =>
        match probe2 with
        | .error e => (.error (.probeErr e), 2)
        | .ok r2 =>
          match getUserInfo fetch with
          | .error e => (.error (.profileErr e), 2)
          | .ok ui => (.ok (r2, ui), 2)

/-- The result dict of run_signin of signin.py lines 380 to 411.  The
keys absent in a branch of the Python dict literal are none here. -/
structure RunResult where
  success : Bool
  status : Option Int
  info : Option String
  sign_count : Option (Option Int)
  user_info : Option UserProfile
  error : Option String
  message : String
deriving DecidableEq

/-- str(e) of a modelled exception. -/
def errText : SignErr → String
  | .probeErr e => e
  | .profileErr e => e
  | .loginErr .entryNotFound => "myTI login entry not found."
  | .loginErr .redirectNotFound => "SSO redirect link not found."
  | .loginErr .formNotFound => "Failed to find form in page."
  | .loginErr .formActionMissing => "Form action is missing."
  | .loginErr .loginRejected => "TI login did not return SAMLResponse. Check username/password, or verify if extra challenge is required."
  | .loginErr .samlFormMissing => "SAMLResponse form is missing."
  | .loginErr (.ssoNotCompleted u) => "SSO callback not completed, current url: " ++ u
  | .loginErr .bindingRequired => "myTI account is not bound to a NUEDC account yet. Open https://www.nuedc-training.com.cn/index/saml/binding in a browser, complete binding (bind existing account or register a new one), then rerun this script."

/-- The message string of the success branch of run_signin. -/
def signMessage (r : SignResult) : String :=
  "签到" ++ (if r.status = 1 then "成功" else if r.status ≠ 0 then "失败" else "已完成")
    ++ ": " ++ r.info

/-- run_signin of signin.py lines 380 to 411 as a function of the outcome
of signer.sign: the try block returns the success dict, the except
BindingRequiredError branch and the except Exception branch each return
their failure dict.  Every branch returns a structured result; no
exception escapes. -/
def runSignin (outcome : Except SignErr (SignResult × UserProfile)) : RunResult :=
  match outcome with
  | .ok (r, ui) =>
    ⟨r.ok, some r.status, some r.info, some r.sign_count, some ui, none,
      signMessage r⟩
  | .error (.loginErr .bindingRequired) =>
    ⟨false, none, none, none, none, some (errText (.loginErr .bindingRequired)),
      "需要绑定账号: " ++ errText (.loginErr .bindingRequired)⟩
  | .error e =>
    ⟨false, none, none, none, none, some (errText e), "签到失败: " ++ errText e⟩

/-- A fixture URL on the target domain, used by concrete witnesses. -/
def urlFix (pathStr : String) : Url :=
  ⟨"www.nuedc-training.com.cn", pathStr, ""⟩

/-- A fixture assertion form, used by concrete witnesses. -/
def formFix : Form := ⟨some "/consume", [⟨some "SAMLResponse", some "blob"⟩]⟩

/-- Fixture entry-page response. -/
def respS0 : Resp :=
  ⟨urlFix "/index/login/myti_login", some ⟨some "/sso/go"⟩, none, none, none, false⟩

/-- Fixture redirect-page response. -/
def respS1 : Resp := ⟨urlFix "/sso/go", none, some ⟨some "/sp_login"⟩, none, none, false⟩

/-- Fixture SP-page response carrying the federation request form. -/
def respS2 : Resp :=
  ⟨urlFix "/sp_login", none, none,
    some ⟨some "/idp", [⟨some "SAMLRequest", some "req"⟩]⟩, none, false⟩

/-- Fixture IdP response that already carries the federation response. -/
def respS3sam : Resp := ⟨urlFix "/idp", none, none, some formFix, none, true⟩

/-- Fixture IdP response that asks for credentials. -/
def respS3cred : Resp :=
  ⟨urlFix "/idp", none, none, none,
    some ⟨some "/dologin", [⟨some "csrf", some "t"⟩]⟩, false⟩

/-- Fixture post-credential response carrying the federation response. -/
def respS4 : Resp := ⟨urlFix "/sso/acs", none, none, some formFix, none, true⟩

/-- Fixture landing response on the binding path. -/
def respS5bind : Resp := ⟨urlFix "/index/saml/binding", none, none, none, none, false⟩

/-- Fixture landing response on the home path. -/
def respS5home : Resp := ⟨urlFix "/index/home", none, none, none, none, false⟩

/-- Fixture run in which the federation response arrives at S3. -/
def envSkip : LoginEnv := ⟨respS0, respS1, respS2, respS3sam, respS4, respS5home⟩

/-- Fixture run that needs the credential hop. -/
def envCred : LoginEnv := ⟨respS0, respS1, respS2, respS3cred, respS4, respS5home⟩

/-- Fixture run that lands on the binding path. -/
def envBind : LoginEnv := ⟨respS0, respS1, respS2, respS3sam, respS4, respS5bind⟩


/-- C1: for every sign-status response whose body parses as structured
data, the checker returns a SignResult whose status is the integer status
field, whose info is the text info field, and whose streak is the nested
integer data.sign_count exactly when that counter is present and
parsable, and null otherwise; ok holds exactly when status is 0 or 1 and
need_login holds exactly when status is 2. -/
theorem c1_parsed_response_classification
    (fs : List (String × JVal)) (st : Int) (inf : String)
    (hs : jget fs "status" = some (.ji st))
    (hi : jget fs "info" = some (.js inf)) :
    ∃ r, requestSignParsed (.jobj fs) = .ok r ∧ r.status = st ∧ r.info = inf
      ∧ (∀ k : Int, r.sign_count = some k ↔
          ∃ dfs v, jget fs "data" = some (.jobj dfs)
            ∧ jget dfs "sign_count" = some v ∧ pyIntOf v = some k)
      ∧ (r.ok = true ↔ (st = 0 ∨ st = 1))
      ∧ (r.need_login = true ↔ st = 2) := by
  refine ⟨⟨st, inf,
      (match jget fs "data" with
        | some (.jobj dfs) =>
          (match jget dfs "sign_count" with
            | none => none
            | some .null => none
            | some v => pyIntOf v)
        | _ => none), .jobj fs⟩, ?_, rfl, rfl, ?_, ?_, ?_⟩
  · simp [requestSignParsed, hs, hi, pyIntOf, pyStr]
  · intro k
    simp only []
    cases hd : jget fs "data" with
    | none => simp [hd]
    | some v =>
      cases v with
      | jobj dfs =>
        simp only [hd]
        cases hsc : jget dfs "sign_count" with
        | none => simp [hsc]
        | some w =>
          cases w with
          | null => simp [hsc, pyIntOf]
          | jb b => simp [hsc]
          | ji n => simp [hsc]
          | js t => simp [hsc]
          | jarr xs => simp [hsc, pyIntOf]
          | jobj gs => simp [hsc, pyIntOf]
      | null => simp [hd]
      | jb b => simp [hd]
      | ji n => simp [hd]
      | js t => simp [hd]
      | jarr xs => simp [hd]
  · simp [SignResult.ok]
  · simp [SignResult.need_login]

/-- Witness for C1 on the documented success body with status 1, info ok
and streak 7. -/
theorem c1_parsed_response_classification_witness :
    ∃ r, requestSignParsed (.jobj [("status", JVal.ji 1), ("info", JVal.js "ok"),
        ("data", JVal.jobj [("sign_count", JVal.ji 7)])]) = .ok r
      ∧ r.status = 1 ∧ r.info = "ok"
      ∧ (∀ k : Int, r.sign_count = some k ↔
          ∃ dfs v, jget [("status", JVal.ji 1), ("info", JVal.js "ok"),
              ("data", JVal.jobj [("sign_count", JVal.ji 7)])] "data" = some (.jobj dfs)
            ∧ jget dfs "sign_count" = some v ∧ pyIntOf v = some k)
      ∧ (r.ok = true ↔ ((1 : Int) = 0 ∨ (1 : Int) = 1))
      ∧ (r.need_login = true ↔ (1 : Int) = 2) :=
  c1_parsed_response_classification _ 1 "ok" rfl rfl

/-- Counterexample to C2 as stated: on a response body that does not parse,
with the login marker in the query but not in the path of the final URL,
the code synthesizes status 2 instead of raising, because it tests the
marker against the whole URL string rather than the path. -/
theorem c2_login_marker_counterexample :
    strHasSub (Url.path ⟨"www.nuedc-training.com.cn", "/index/home", "next=index/login"⟩)
        "index/login" = false
    ∧ requestSignUnparsed 200 ⟨"www.nuedc-training.com.cn", "/index/home", "next=index/login"⟩
        = .ok ⟨2, "need login", none, .jobj []⟩ := by
  exact ⟨rfl, rfl⟩

/-- C2 as amended: for a body that does not parse as structured data the
checker synthesizes status 2 exactly when the whole final URL string
contains the login marker, and raises the unexpected-response failure
otherwise; these are the only two outcomes. -/
theorem c2_unparsed_body_outcomes (sc : Int) (u : Url) :
    (strHasSub (render u) "index/login" = true →
      requestSignUnparsed sc u = .ok ⟨2, "need login", none, .jobj []⟩)
    ∧ (strHasSub (render u) "index/login" = false →
      ∃ msg, requestSignUnparsed sc u = .error msg) := by
  constructor <;> intro h <;> simp [requestSignUnparsed, h]

/-- Witness for C2 as amended, on a login landing URL and on an unrelated
URL. -/
theorem c2_unparsed_body_outcomes_witness :
    requestSignUnparsed 200 ⟨"www.nuedc-training.com.cn", "/index/login", ""⟩
      = .ok ⟨2, "need login", none, .jobj []⟩
    ∧ ∃ msg, requestSignUnparsed 404 ⟨"example.com", "/x", ""⟩ = .error msg :=
  ⟨(c2_unparsed_body_outcomes 200 _).1 rfl, (c2_unparsed_body_outcomes 404 _).2 rfl⟩

/-- C8: run_signin maps every outcome of the sign attempt, raising steps
included, to a structured result dict: success is true exactly on an ok
result with an ok status, and the error field is set exactly on the
failure branches.  The function is total on outcomes, so no exception
propagates to the batch driver. -/
theorem c8_run_signin_total_structured
    (outcome : Except SignErr (SignResult × UserProfile)) :
    ((runSignin outcome).success = true ↔ ∃ r ui, outcome = .ok (r, ui) ∧ r.ok = true)
    ∧ ((runSignin outcome).error = none ↔ outcome.isOk = true) := by
  cases outcome with
  | ok p =>
    cases p with
    | mk r ui => simp [runSignin, Except.isOk, Except.toBool]
  | error e =>
    cases e with
    | probeErr s => simp [runSignin, Except.isOk, Except.toBool]
    | profileErr s => simp [runSignin, Except.isOk, Except.toBool]
    | loginErr le => cases le <;> simp [runSignin, Except.isOk, Except.toBool]

theorem plook_dictSet (m : List (String × String)) (k v k2 : String) :
    plook k2 (dictSet m k v) = if k2 = k then some v else plook k2 m := by
  induction m with
  | nil =>
    simp only [dictSet, plook]
    by_cases h : k2 = k
    · subst h
      simp
    · rw [if_neg (fun hh => h hh.symm), if_neg h]
  | cons x rest ih =>
    obtain ⟨kx, vx⟩ := x
    by_cases hk : kx = k
    · subst hk
      simp only [dictSet, if_pos rfl, plook]
      by_cases h2 : kx = k2
      · subst h2
        simp
      · rw [if_neg h2, if_neg (fun hh => h2 hh.symm), if_neg h2]
    · simp only [dictSet, if_neg hk, plook]
      by_cases h2 : kx = k2
      · subst h2
        rw [if_pos rfl, if_pos rfl, if_neg (fun hh => hk hh)]
      · rw [if_neg h2, if_neg h2, ih]

theorem plook_foldl_stepPay (inputs : List FormInput)
    (acc : List (String × String)) (n : String) (hn : n ≠ "") :
    plook n (inputs.foldl stepPay acc) =
      (match lastNamedVal inputs n with
        | some v => some v
        | none => plook n acc) := by
  induction inputs generalizing acc with
  | nil => rfl
  | cons i rest ih =>
    rw [List.foldl_cons, ih]
    simp only [lastNamedVal]
    cases hrest : lastNamedVal rest n with
    | some v => simp
    | none =>
      rcases hni : i.name with _ | m
      · simp [stepPay, hni]
      · by_cases hm : m = ""
        · subst hm
          simp [stepPay, hni, Ne.symm hn]
        · by_cases heq : m = n
          · subst heq
            simp [stepPay, hni, hm, plook_dictSet]
          · simp only [stepPay, hni, if_neg hm, plook_dictSet]
            rw [if_neg (fun hh => heq hh.symm)]
            simp [hni, heq]

/-- The last input carrying a given name wins: the field mapping built by
the extraction loop looks the name up to the value of the last input that
carries it. -/
theorem plook_buildPayload (inputs : List FormInput) (n : String) (hn : n ≠ "") :
    plook n (buildPayload inputs) = lastNamedVal inputs n := by
  rw [buildPayload, plook_foldl_stepPay _ _ _ hn]
  cases lastNamedVal inputs n <;> simp [plook]

theorem plook_empty_foldl (inputs : List FormInput) (acc : List (String × String)) :
    plook "" (inputs.foldl stepPay acc) = plook "" acc := by
  induction inputs generalizing acc with
  | nil => rfl
  | cons i rest ih =>
    rw [List.foldl_cons, ih]
    rcases hni : i.name with _ | m
    · simp [stepPay, hni]
    · by_cases hm : m = ""
      · simp [stepPay, hni, hm]
      · simp [stepPay, hni, hm, plook_dictSet, Ne.symm hm]

/-- Counterexample to C5 as stated: a matched form whose action attribute
is present but empty is still rejected, and an input whose name attribute
is present but empty is dropped from the field mapping, because the code
tests both attributes with Python falsiness rather than for absence. -/
theorem c5_extract_form_counterexample :
    (extractForm (some ⟨some "", []⟩)).isOk = false
    ∧ (⟨some "", []⟩ : Form).action ≠ none
    ∧ extractForm (some ⟨some "/login", [⟨some "", some "v"⟩]⟩)
        = .ok ("/login", []) := by
  refine ⟨rfl, ?_, rfl⟩
  simp

/-- C5 as amended: extraction fails exactly when no element was matched or
when the matched form carries no usable (present and non-empty) action
attribute; on success it returns that action and the field mapping in
which inputs with an absent or empty name are ignored and, among inputs
sharing a name, the last one wins with its value defaulting to empty. -/
theorem c5_extract_form_spec (form? : Option Form) (f : Form) (a : String)
    (flds : List (String × String)) :
    ((extractForm form?).isOk = false ↔
      (form? = none ∨ ∃ g, form? = some g ∧ (g.action = none ∨ g.action = some "")))
    ∧ (form? = some f → extractForm form? = .ok (a, flds) →
        f.action = some a ∧ a ≠ ""
        ∧ (∀ n, n ≠ "" → plook n flds = lastNamedVal f.inputs n)
        ∧ plook "" flds = none)
    ∧ firstFormIn [] = none ∧ (∀ g rest, firstFormIn (g :: rest) = some g) := by
  refine ⟨?_, ?_, rfl, fun g rest => rfl⟩
  · cases form? with
    | none => simp [extractForm, Except.isOk, Except.toBool]
    | some g =>
      cases hga : g.action with
      | none => simp [extractForm, actionOf, hga, Except.isOk, Except.toBool]
      | some s =>
        by_cases hs : s = "" <;>
          simp [extractForm, actionOf, hga, hs, Except.isOk, Except.toBool]
  · intro hf hok
    subst hf
    cases hga : f.action with
    | none => simp [extractForm, actionOf, hga] at hok
    | some s =>
      by_cases hs : s = ""
      · simp [extractForm, actionOf, hga, hs] at hok
      · simp only [extractForm, actionOf, hga, if_neg hs] at hok
        have hpair : (s, buildPayload f.inputs) = (a, flds) := Except.ok.inj hok
        have hsa : s = a := congrArg Prod.fst hpair
        have hflds : buildPayload f.inputs = flds := congrArg Prod.snd hpair
        subst hsa
        refine ⟨rfl, hs, ?_, ?_⟩
        · intro n hn
          rw [← hflds, plook_buildPayload _ _ hn]
        · rw [← hflds, buildPayload, plook_empty_foldl]
          rfl

/-- Witness for C5 as amended, on a form with a duplicate field name and
an unnamed input. -/
theorem c5_extract_form_spec_witness :
    (⟨some "/a", [⟨some "x", some "1"⟩, ⟨none, some "z"⟩, ⟨some "x", some "2"⟩]⟩
        : Form).action = some "/a"
    ∧ "/a" ≠ ""
    ∧ (∀ n, n ≠ "" → plook n [("x", "2")] =
        lastNamedVal [⟨some "x", some "1"⟩, ⟨none, some "z"⟩, ⟨some "x", some "2"⟩] n)
    ∧ plook "" [("x", "2")] = none :=
  (c5_extract_form_spec
    (some ⟨some "/a", [⟨some "x", some "1"⟩, ⟨none, some "z"⟩, ⟨some "x", some "2"⟩]⟩)
    ⟨some "/a", [⟨some "x", some "1"⟩, ⟨none, some "z"⟩, ⟨some "x", some "2"⟩]⟩
    "/a" [("x", "2")]).2.1 rfl rfl

theorem setCookie_of_fresh (jar : List Cookie) (c : Cookie)
    (h : ∀ x ∈ jar, ckey x ≠ ckey c) : setCookie jar c = jar ++ [c] := by
  induction jar with
  | nil => rfl
  | cons x rest ih =>
    simp only [setCookie, if_neg (h x (by simp))]
    rw [ih (fun y hy => h y (by simp [hy]))]
    rfl

theorem foldl_setCookie_of_fresh (s : List Cookie) :
    ∀ acc : List Cookie, s.Pairwise (fun a b => ckey a ≠ ckey b) →
      (∀ x ∈ acc, ∀ y ∈ s, ckey x ≠ ckey y) →
      s.foldl setCookie acc = acc ++ s := by
  induction s with
  | nil => intro acc _ _; simp
  | cons c rest ih =>
    intro acc hp hd
    rw [List.foldl_cons, setCookie_of_fresh acc c (fun x hx => hd x hx c (by simp))]
    rw [ih (acc ++ [c]) (List.pairwise_cons.mp hp).2 ?_]
    · simp
    · intro x hx y hy
      rcases List.mem_append.mp hx with hxa | hxc
      · exact hd x hxa y (by simp [hy])
      · have : x = c := by simpa using hxc
        subst this
        exact (List.pairwise_cons.mp hp).1 y hy

/-- C6: saving a session cookie jar and loading the saved records back
into a fresh session yields exactly the same cookies, in particular the
same name, value, domain and path tuples.  The hypothesis is the jar
invariant requests maintains: one cookie per name, domain, path key. -/
theorem c6_cookie_roundtrip (s : List Cookie)
    (hs : s.Pairwise (fun a b => ckey a ≠ ckey b)) :
    (loadCookies (saveCookies s) []).map nvdp = s.map nvdp := by
  have hsave : saveCookies s = s := by
    rw [saveCookies, foldl_setCookie_of_fresh s [] hs (by simp)]
    rfl
  have hload : loadCookies s [] = s := by
    rw [loadCookies]
    have hcc : (fun (j : List Cookie) (c : Cookie) => setCookie j (createCookie c))
        = setCookie := by
      funext j c
      rfl
    rw [hcc, foldl_setCookie_of_fresh s [] hs (by simp)]
    rfl
  rw [hsave, hload]

/-- Witness for C6 on a two-cookie session. -/
theorem c6_cookie_roundtrip_witness :
    (loadCookies (saveCookies
        [⟨"sid", "abc", "www.nuedc-training.com.cn", "/", false, none⟩,
         ⟨"tok", "xyz", "login.ti.com", "/", true, some 1700000000⟩]) []).map nvdp
      = [⟨"sid", "abc", "www.nuedc-training.com.cn", "/", false, none⟩,
         ⟨"tok", "xyz", "login.ti.com", "/", true, some 1700000000⟩].map nvdp :=
  c6_cookie_roundtrip _ (by simp [ckey])

theorem extractForm_not_binding (x : Option Form) :
    extractForm x ≠ .error .bindingRequired := by
  cases x with
  | none => simp [extractForm]
  | some f => cases ha : actionOf f <;> simp [extractForm, ha]

theorem consumeAssertion_binding (env : LoginEnv) (tr : List Request) (r : Resp)
    (h : (consumeAssertion env tr r).2 = .error .bindingRequired) :
    startsWithStr env.s5.url.path "/index/saml/binding" = true := by
  unfold consumeAssertion at h
  by_cases hm : r.hasSAMLText = false
  · rw [if_pos hm] at h
    simp at h
  · rw [if_neg hm] at h
    cases hf : r.firstForm with
    | none => simp [hf] at h
    | some f =>
      simp only [hf] at h
      cases ha : actionOf f with
      | none => simp [ha] at h
      | some act =>
        simp only [ha] at h
        unfold finalCheck at h
        by_cases h1 : strHasSub env.s5.url.host "nuedc-training.com.cn" = false
        · rw [if_pos h1] at h
          simp at h
        · rw [if_neg h1] at h
          by_cases h2 : startsWithStr env.s5.url.path "/index/saml/binding" = true
          · exact h2
          · rw [if_neg h2] at h
            simp at h

theorem loginViaTi_binding (env : LoginEnv) (u p : String)
    (h : (loginViaTi env u p).2 = .error .bindingRequired) :
    startsWithStr env.s5.url.path "/index/saml/binding" = true := by
  unfold loginViaTi at h
  cases h0 : hrefOf env.s0.mytiBtn with
  | none => simp [h0] at h
  | some h0v =>
    simp only [h0] at h
    cases h1 : hrefOf env.s1.autoLink with
    | none => simp [h1] at h
    | some h1v =>
      simp only [h1] at h
      cases h2 : extractForm env.s2.firstForm with
      | error e =>
        simp only [h2] at h
        simp at h
        rw [h] at h2
        exact absurd h2 (extractForm_not_binding _)
      | ok pr =>
        obtain ⟨a2, pl2⟩ := pr
        simp only [h2] at h
        by_cases hm : env.s3.hasSAMLText = true
        · rw [if_pos hm] at h
          exact consumeAssertion_binding _ _ _ h
        · rw [if_neg hm] at h
          cases h4 : extractForm env.s3.postLoginForm with
          | error e =>
            simp only [h4] at h
            simp at h
            rw [h] at h4
            exact absurd h4 (extractForm_not_binding _)
          | ok pr4 =>
            obtain ⟨a4, pl4⟩ := pr4
            simp only [h4] at h
            exact consumeAssertion_binding _ _ _ h

/-- C3: on a landing URL on the target domain, the landing checks raise
BindingRequired exactly when the landing path starts with the binding
path, never otherwise; and across a whole run of the login flow, the
distinct BindingRequired outcome occurs only when the final landing path
starts with the binding path. -/
theorem c3_binding_required_iff (u : Url) (env : LoginEnv) (uu pp : String)
    (hhost : strHasSub u.host "nuedc-training.com.cn" = true) :
    (finalCheck u = .error .bindingRequired ↔
      startsWithStr u.path "/index/saml/binding" = true)
    ∧ (startsWithStr u.path "/index/saml/binding" = false → finalCheck u = .ok ())
    ∧ ((loginViaTi env uu pp).2 = .error .bindingRequired →
        startsWithStr env.s5.url.path "/index/saml/binding" = true) := by
  refine ⟨?_, ?_, loginViaTi_binding env uu pp⟩
  · unfold finalCheck
    rw [if_neg (by simp [hhost])]
    by_cases h2 : startsWithStr u.path "/index/saml/binding" = true
    · simp [h2]
    · simp [h2]
  · intro h2
    unfold finalCheck
    rw [if_neg (by simp [hhost]), if_neg (by simp [h2])]

/-- Witness for C3 on the binding landing URL and a fixture run that lands
on the binding path. -/
theorem c3_binding_required_iff_witness :
    (finalCheck (urlFix "/index/saml/binding") = .error .bindingRequired ↔
      startsWithStr (urlFix "/index/saml/binding").path "/index/saml/binding" = true)
    ∧ (startsWithStr (urlFix "/index/saml/binding").path "/index/saml/binding" = false →
        finalCheck (urlFix "/index/saml/binding") = .ok ())
    ∧ ((loginViaTi envBind "user" "pw").2 = .error .bindingRequired →
        startsWithStr envBind.s5.url.path "/index/saml/binding" = true) :=
  c3_binding_required_iff (urlFix "/index/saml/binding") envBind "user" "pw" rfl

/-- C9: the signer constructor only strips the raw username; on a run that
reaches the credential hop, the whole request trace is the four
env-determined requests followed by the credential POST, whose payload is
the extracted form fields with the lower-cased stored username injected
under pf.username, the password under pf.pass and the submit marker; the
lower-casing is applied exactly there, to the stripped stored username. -/
theorem c9_username_lowercased_once_at_s4
    (env : LoginEnv) (u p : String) (h0v h1v a2 a4 : String)
    (pl2 pl4 : List (String × String))
    (h0 : hrefOf env.s0.mytiBtn = some h0v)
    (h1 : hrefOf env.s1.autoLink = some h1v)
    (h2 : extractForm env.s2.firstForm = .ok (a2, pl2))
    (hm : env.s3.hasSAMLText = false)
    (h4 : extractForm env.s3.postLoginForm = .ok (a4, pl4)) :
    signerUsername u = String.trim u
    ∧ loginViaTi env (signerUsername u) p =
        consumeAssertion env
          [⟨MYTI_LOGIN_PAGE, [("referer", NUEDC_HOME)]⟩,
           ⟨joinUrl (render env.s0.url) h0v, []⟩,
           ⟨joinUrl (render env.s1.url) h1v, []⟩,
           ⟨joinUrl (render env.s2.url) a2, pl2⟩,
           ⟨joinUrl (render env.s3.url) a4,
             dictSet (dictSet (dictSet pl4
               "pf.username" (String.toLower (String.trim u)))
               "pf.pass" p)
               "loginbutton" "login"⟩]
          env.s4
    ∧ plook "pf.username"
        (dictSet (dictSet (dictSet pl4
          "pf.username" (String.toLower (String.trim u)))
          "pf.pass" p)
          "loginbutton" "login") = some (String.toLower (String.trim u)) := by
  refine ⟨rfl, ?_, ?_⟩
  · simp [loginViaTi, h0, h1, h2, hm, h4, signerUsername]
  · rw [plook_dictSet, if_neg (by decide), plook_dictSet, if_neg (by decide),
      plook_dictSet, if_pos rfl]

/-- Witness for C9 on the fixture run that reaches the credential hop,
with a mixed-case username. -/
theorem c9_username_lowercased_once_at_s4_witness :
    signerUsername " Alice@Ti.com " = String.trim " Alice@Ti.com "
    ∧ loginViaTi envCred (signerUsername " Alice@Ti.com ") "pw" =
        consumeAssertion envCred
          [⟨MYTI_LOGIN_PAGE, [("referer", NUEDC_HOME)]⟩,
           ⟨joinUrl (render envCred.s0.url) "/sso/go", []⟩,
           ⟨joinUrl (render envCred.s1.url) "/sp_login", []⟩,
           ⟨joinUrl (render envCred.s2.url) "/idp", [("SAMLRequest", "req")]⟩,
           ⟨joinUrl (render envCred.s3.url) "/dologin",
             dictSet (dictSet (dictSet [("csrf", "t")]
               "pf.username" (String.toLower (String.trim " Alice@Ti.com ")))
               "pf.pass" "pw")
               "loginbutton" "login"⟩]
          envCred.s4
    ∧ plook "pf.username"
        (dictSet (dictSet (dictSet [("csrf", "t")]
          "pf.username" (String.toLower (String.trim " Alice@Ti.com ")))
          "pf.pass" "pw")
          "loginbutton" "login")
        = some (String.toLower (String.trim " Alice@Ti.com ")) :=
  c9_username_lowercased_once_at_s4 envCred " Alice@Ti.com " "pw"
    "/sso/go" "/sp_login" "/idp" "/dologin" [("SAMLRequest", "req")] [("csrf", "t")]
    rfl rfl rfl rfl rfl

/-- C10: when the reply to the federation POST already carries the
federation-response marker, the flow proceeds directly to consuming the
assertion form of that reply, with a trace of exactly the four preceding
requests, and its entire result is independent of the username and the
password, which therefore enter no request payload. -/
theorem c10_credential_hop_skipped
    (env : LoginEnv) (u p u2 p2 : String) (h0v h1v a2 : String)
    (pl2 : List (String × String))
    (hm : env.s3.hasSAMLText = true)
    (h0 : hrefOf env.s0.mytiBtn = some h0v)
    (h1 : hrefOf env.s1.autoLink = some h1v)
    (h2 : extractForm env.s2.firstForm = .ok (a2, pl2)) :
    loginViaTi env u p =
      consumeAssertion env
        [⟨MYTI_LOGIN_PAGE, [("referer", NUEDC_HOME)]⟩,
         ⟨joinUrl (render env.s0.url) h0v, []⟩,
         ⟨joinUrl (render env.s1.url) h1v, []⟩,
         ⟨joinUrl (render env.s2.url) a2, pl2⟩]
        env.s3
    ∧ loginViaTi env u p = loginViaTi env u2 p2 := by
  have hmain : ∀ uu pp : String, loginViaTi env uu pp =
      consumeAssertion env
        [⟨MYTI_LOGIN_PAGE, [("referer", NUEDC_HOME)]⟩,
         ⟨joinUrl (render env.s0.url) h0v, []⟩,
         ⟨joinUrl (render env.s1.url) h1v, []⟩,
         ⟨joinUrl (render env.s2.url) a2, pl2⟩]
        env.s3 := by
    intro uu pp
    simp [loginViaTi, h0, h1, h2, hm]
  exact ⟨hmain u p, (hmain u p).trans (hmain u2 p2).symm⟩

/-- Witness for C10 on the fixture run whose federation POST already
returns the marker, with two different credential pairs. -/
theorem c10_credential_hop_skipped_witness :
    loginViaTi envSkip "userA" "pwA" =
      consumeAssertion envSkip
        [⟨MYTI_LOGIN_PAGE, [("referer", NUEDC_HOME)]⟩,
         ⟨joinUrl (render envSkip.s0.url) "/sso/go", []⟩,
         ⟨joinUrl (render envSkip.s1.url) "/sp_login", []⟩,
         ⟨joinUrl (render envSkip.s2.url) "/idp", [("SAMLRequest", "req")]⟩]
        envSkip.s3
    ∧ loginViaTi envSkip "userA" "pwA" = loginViaTi envSkip "userB" "pwB" :=
  c10_credential_hop_skipped envSkip "userA" "pwA" "userB" "pwB"
    "/sso/go" "/sp_login" "/idp" [("SAMLRequest", "req")] rfl rfl rfl rfl

/-- Counterexample to C4 as stated: when the second probe after a
completed login again reports needsLogin, sign returns that result
normally to its caller instead of failing hard; no
PostLoginStillUnauthenticated failure exists in the code. -/
theorem c4_postlogin_counterexample :
    (signPy (.ok ⟨2, "need login", none, .jobj []⟩)
        (.ok ⟨2, "need login", none, .jobj []⟩) (.ok ())
        (.ok ⟨none, [], [], ""⟩)).1
      = .ok (⟨2, "need login", none, .jobj []⟩, ⟨"", 0⟩)
    ∧ SignResult.need_login ⟨2, "need login", none, .jobj []⟩ = true := by
  exact ⟨rfl, rfl⟩

/-- C4 as amended: after a first probe that reports needsLogin and a
completed login, sign re-probes exactly once (two probes in total, never
more) and returns whatever the second probe reports; a second needsLogin
is returned as a not-ok result, which makes run_signin report failure,
rather than raising a dedicated error. -/
theorem c4_single_reprobe (r1 r2 : SignResult) (pg : HomePage)
    (h1 : r1.need_login = true) :
    signPy (.ok r1) (.ok r2) (.ok ()) (.ok pg) = (.ok (r2, scrapeHome pg), 2)
    ∧ (r2.need_login = true → r2.ok = false)
    ∧ (r2.need_login = true →
        (runSignin (signPy (.ok r1) (.ok r2) (.ok ()) (.ok pg)).1).success = false) := by
  have hmain : signPy (.ok r1) (.ok r2) (.ok ()) (.ok pg)
      = (.ok (r2, scrapeHome pg), 2) := by
    simp [signPy, h1, getUserInfo, Except.map]
  refine ⟨hmain, ?_, ?_⟩
  · intro h2
    have hst : r2.status = 2 := by
      simpa [SignResult.need_login] using h2
    simp [SignResult.ok, hst]
  · intro h2
    have hst : r2.status = 2 := by
      simpa [SignResult.need_login] using h2
    rw [hmain]
    simp [runSignin, SignResult.ok, hst]

/-- Witness for C4 as amended: both probes report needsLogin. -/
theorem c4_single_reprobe_witness :
    signPy (.ok ⟨2, "need login", none, .jobj []⟩)
        (.ok ⟨2, "need login", none, .jobj []⟩) (.ok ()) (.ok ⟨none, [], [], ""⟩)
      = (.ok (⟨2, "need login", none, .jobj []⟩, scrapeHome ⟨none, [], [], ""⟩), 2)
    ∧ (SignResult.need_login ⟨2, "need login", none, .jobj []⟩ = true →
        SignResult.ok ⟨2, "need login", none, .jobj []⟩ = false)
    ∧ (SignResult.need_login ⟨2, "need login", none, .jobj []⟩ = true →
        (runSignin (signPy (.ok ⟨2, "need login", none, .jobj []⟩)
          (.ok ⟨2, "need login", none, .jobj []⟩) (.ok ())
          (.ok ⟨none, [], [], ""⟩)).1).success = false) :=
  c4_single_reprobe ⟨2, "need login", none, .jobj []⟩
    ⟨2, "need login", none, .jobj []⟩ ⟨none, [], [], ""⟩ rfl

/-- Counterexample to C7 as stated: a failure of the home-page fetch
inside the profile scraper propagates out of sign and makes run_signin
report the whole operation as failed, even though the sign probe itself
succeeded. -/
theorem c7_profile_failure_counterexample :
    (signPy (.ok ⟨1, "ok", some 7, .jobj []⟩) (.ok ⟨1, "ok", some 7, .jobj []⟩)
        (.ok ()) (.error "ConnectionError")).1
      = .error (.profileErr "ConnectionError")
    ∧ SignResult.ok ⟨1, "ok", some 7, .jobj []⟩ = true
    ∧ (runSignin (.error (.profileErr "ConnectionError"))).success = false := by
  exact ⟨rfl, rfl, rfl⟩

/-- C7 as amended: once the home page is fetched, the scraping cascade
never fails and merely leaves the fields empty or zero when nothing
matches; but a failure of the fetch itself propagates out of
get_user_info and out of sign, failing the overall operation. -/
theorem c7_scraper_absorption (pg : HomePage) (e : String) (r1 : SignResult)
    (hr : r1.need_login = false) :
    getUserInfo (.ok pg) = .ok (scrapeHome pg)
    ∧ getUserInfo (.error e) = .error e
    ∧ (pg.usernameText = none → (scrapeHome pg).username = "")
    ∧ (pg.hzContainerTexts = [] → pg.hzSelectorTexts = [] →
        numsIn pg.pageText = [] → (scrapeHome pg).hz_coins = 0)
    ∧ (signPy (.ok r1) (.ok r1) (.ok ()) (.error e)).1 = .error (.profileErr e) := by
  refine ⟨rfl, rfl, ?_, ?_, ?_⟩
  · intro h
    unfold scrapeHome
    cases pg.hzContainerTexts.findSome? (fun t => (numsIn t).head?) with
    | some n => simp [h]
    | none =>
      cases pg.hzSelectorTexts.findSome? (fun t => (numsIn t).head?) with
      | some n => simp [h]
      | none => simp [h]
  · intro ha hb hc
    unfold scrapeHome
    simp [ha, hb, hc]
  · simp [signPy, hr, getUserInfo, Except.map]

/-- Witness for C7 as amended, on an empty home page, a connection error
and an already-ok probe result. -/
theorem c7_scraper_absorption_witness :
    getUserInfo (.ok ⟨none, [], [], ""⟩) = .ok (scrapeHome ⟨none, [], [], ""⟩)
    ∧ getUserInfo (.error "ConnectionError") = .error "ConnectionError"
    ∧ ((⟨none, [], [], ""⟩ : HomePage).usernameText = none →
        (scrapeHome ⟨none, [], [], ""⟩).username = "")
    ∧ ((⟨none, [], [], ""⟩ : HomePage).hzContainerTexts = [] →
        (⟨none, [], [], ""⟩ : HomePage).hzSelectorTexts = [] →
        numsIn (⟨none, [], [], ""⟩ : HomePage).pageText = [] →
        (scrapeHome ⟨none, [], [], ""⟩).hz_coins = 0)
    ∧ (signPy (.ok ⟨0, "", none, .jobj []⟩) (.ok ⟨0, "", none, .jobj []⟩)
        (.ok ()) (.error "ConnectionError")).1 = .error (.profileErr "ConnectionError") :=
  c7_scraper_absorption ⟨none, [], [], ""⟩ "ConnectionError" ⟨0, "", none, .jobj []⟩ rfl
